import Mathlib

/-!
Verification of the data-analysis pipeline of the dissertation repository.

The repository has two near-identical implementations of the pipeline:
`analyze.py` (class `DataAnalyzer`, pandas-based) and
`create_visualizations.py` (plain-Python, defaultdict-based), plus a
sample-data generator.  Numeric values are modelled with `ℚ`; a pandas/numpy
`NaN` arising from an empty mean or an undefined sample standard deviation is
modelled as `none : Option ℚ`.
-/

/-- The metrics block of one JSON result, holding exactly the fields that
`DataAnalyzer.load_data` reads (`analyze.py` lines 55-61). -/
structure Metrics where
  latencyAverage : ℚ
  latencyMin : ℚ
  latencyMax : ℚ
  cpuAverage : ℚ
  cpuMax : ℚ
  tlsAverage : ℚ
  tlsMin : ℚ
deriving DecidableEq, Repr

/-- One element of the top-level `results` list of the JSON input document.
`metrics = none` models a missing/empty metrics block (falsy in Python). -/
structure JsonResult where
  testId : ℕ
  architecture : String
  numViewers : ℕ
  packetLoss : ℚ
  bandwidth : String
  success : Bool
  metrics : Option Metrics
deriving DecidableEq, Repr

/-- A loaded analysis record: one row of the DataFrame built by
`DataAnalyzer.load_data`, or one converted dict of
`create_visualizations.load_data`.  These are the columns every downstream
analysis reads. -/
structure Record where
  testId : ℕ
  architecture : String
  numViewers : ℕ
  packetLoss : ℚ
  bandwidth : String
  avgLatency : ℚ
  minLatency : ℚ
  maxLatency : ℚ
  avgCpu : ℚ
  maxCpu : ℚ
  avgTls : ℚ
  minTls : ℚ
deriving DecidableEq, Repr

/-- One row of `results.csv` as written by `generate_sample_data.py`
(lines 127-142): the analysis columns plus the `success` flag and a
timestamp.  `pd.read_csv` / `csv.DictReader` parse every row of the file. -/
structure CsvRow where
  testId : ℕ
  architecture : String
  numViewers : ℕ
  packetLoss : ℚ
  bandwidth : String
  success : Bool
  avgLatency : ℚ
  minLatency : ℚ
  maxLatency : ℚ
  avgCpu : ℚ
  maxCpu : ℚ
  avgTls : ℚ
  minTls : ℚ
  timestamp : ℕ
deriving DecidableEq, Repr

/-- The analysis view of a CSV row: both loaders hand every parsed CSV row,
with its typed columns, to the analyses.  Neither CSV loader filters on the
`success` column or normalizes the architecture label. -/
def CsvRow.toRecord (r : CsvRow) : Record :=
  { testId := r.testId
    architecture := r.architecture
    numViewers := r.numViewers
    packetLoss := r.packetLoss
    bandwidth := r.bandwidth
    avgLatency := r.avgLatency
    minLatency := r.minLatency
    maxLatency := r.maxLatency
    avgCpu := r.avgCpu
    maxCpu := r.maxCpu
    avgTls := r.avgTls
    minTls := r.minTls }

/-- Python's `str.lower()` (the labels in this domain are ASCII). -/
def pyLower (s : String) : String := ⟨s.data.map Char.toLower⟩

/-- Python's `str.upper()` (the labels in this domain are ASCII). -/
def pyUpper (s : String) : String := ⟨s.data.map Char.toUpper⟩

/-- The record built from one successful JSON result
(`analyze.py` lines 49-62); the architecture label is upper-cased. -/
def jsonRecord (r : JsonResult) (m : Metrics) : Record :=
  { testId := r.testId
    architecture := pyUpper r.architecture
    numViewers := r.numViewers
    packetLoss := r.packetLoss
    bandwidth := r.bandwidth
    avgLatency := m.latencyAverage
    minLatency := m.latencyMin
    maxLatency := m.latencyMax
    avgCpu := m.cpuAverage
    maxCpu := m.cpuMax
    avgTls := m.tlsAverage
    minTls := m.tlsMin }

/-- The JSON branch of `DataAnalyzer.load_data` (lines 47-63): a result is
kept exactly when its success flag is true and its metrics block is
present. -/
def jsonToRecords : List JsonResult → List Record
  | [] => []
  | r :: rs =>
    match r.success, r.metrics with
    | true, some m => jsonRecord r m :: jsonToRecords rs
    | _, _ => jsonToRecords rs

/-- The failure raised by `DataAnalyzer.load_data` when neither input file
exists (line 67). -/
inductive LoadError where
  | noInput
deriving DecidableEq, Repr

/-- `DataAnalyzer.load_data` (`analyze.py` lines 28-73).  The two `Option`
arguments model the existence of `results.csv` and `results.json`; the CSV
branch is tried first, the JSON branch only when no CSV file exists, and a
`FileNotFoundError` is raised when neither exists. -/
def load_data (csv : Option (List CsvRow)) (json : Option (List JsonResult)) :
    Except LoadError (List Record) :=
  match csv with
  | some rows => .ok (rows.map CsvRow.toRecord)
  | none =>
    match json with
    | some results => .ok (jsonToRecords results)
    | none => .error .noInput

/-- `create_visualizations.load_data` (lines 27-48): reads only the CSV file,
returns `[]` when it is absent, and otherwise converts every row. -/
def cvLoad_data (csv : Option (List CsvRow)) : List Record :=
  match csv with
  | none => []
  | some rows => rows.map CsvRow.toRecord

/-! ## Grouping/aggregation engine

Both implementations compute, per group, the arithmetic mean of one numeric
field over the records passing a filter.  `npMean` is `numpy.mean` /
pandas `.mean()`: the mean of an empty list is `NaN`, modelled as `none`.
In pandas, `groupby` only produces keys with at least one member, so an
empty group never yields a row; in `create_visualizations.py` the
`defaultdict(list)` pattern can hand `np.mean` an empty list. -/

/-- `np.mean` / pandas `.mean()`, with `NaN` on an empty list as `none`. -/
def npMean (xs : List ℚ) : Option ℚ :=
  if xs.isEmpty then none else some (xs.sum / xs.length)

/-- The values of one group: the target field of the records that pass the
filter and fall under the group key `k`.  This is the shared shape of the
three `filter → groupby → mean` blocks of `analyze.py` (lines 80-87, 114-121,
151-158) and the `defaultdict` loops of `create_visualizations.py`. -/
def groupValues {K : Type} [DecidableEq K] (data : List Record)
    (P : Record → Bool) (key : Record → K) (val : Record → ℚ) (k : K) :
    List ℚ :=
  ((data.filter P).filter (fun r => key r = k)).map val

/-- The aggregation engine: mean of the target field per group key. -/
def aggregateMean {K : Type} [DecidableEq K] (data : List Record)
    (P : Record → Bool) (key : Record → K) (val : Record → ℚ) (k : K) :
    Option ℚ :=
  npMean (groupValues data P key val k)

/-- The group keys the engine actually produces: pandas `groupby` enumerates
exactly the keys with at least one member record. -/
def groupKeys {K : Type} [DecidableEq K] (data : List Record)
    (P : Record → Bool) (key : Record → K) : List K :=
  ((data.filter P).map key).dedup

/-- The filter of the CPU-utilization analysis: 0% packet loss
(`analyze.py` line 80, `create_visualizations.py` line 55). -/
def cpuFilter (r : Record) : Bool := r.packetLoss == 0

/-- The CPU-vs-viewers aggregation of `analyze.py` (lines 80-87): filter to
0% packet loss, group by (architecture, numViewers), mean of `avgCpu`. -/
def cpuMean (data : List Record) (k : String × ℕ) : Option ℚ :=
  aggregateMean data cpuFilter (fun r => (r.architecture, r.numViewers))
    (fun r => r.avgCpu) k

/-- `create_visualizations.create_cpu_utilization_chart` grouping
(lines 55-75): a record goes to the P2P series iff its label lower-cases to
`p2p`, otherwise to the SFU series; per viewer count the mean of `avgCpu`. -/
def cvCpuSeries (data : List Record) (isP2P : Bool) (viewers : ℕ) :
    Option ℚ :=
  npMean (((data.filter cpuFilter).filter
    (fun r => ((pyLower r.architecture == "p2p") == isP2P)
      && r.numViewers == viewers)).map (fun r => r.avgCpu))

/-! ## TLS-vs-bandwidth analysis -/

/-- The filter of the TLS analysis: 5 viewers and 0% packet loss
(`analyze.py` line 151, `create_visualizations.py` line 144). -/
def tlsFilter (r : Record) : Bool := r.numViewers == 5 && r.packetLoss == 0

/-- `bandwidth_order = {'1mbit': 1, '2mbit': 2, '5mbit': 5}`
(`analyze.py` line 161); any other label maps to `NaN`. -/
def bandwidth_order (b : String) : Option ℕ :=
  if b = "1mbit" then some 1
  else if b = "2mbit" then some 2
  else if b = "5mbit" then some 5
  else none

/-- The sort key used by `sort_values('bandwidthNum')`: pandas places `NaN`
keys last (`na_position='last'`), modelled by a sentinel above every real
tier value. -/
def bwSortKey (b : String) : ℕ :=
  match bandwidth_order b with
  | some n => n
  | none => 6

/-- One row of the grouped TLS frame: (architecture, bandwidth, mean TLS). -/
def tlsRow (data : List Record) (k : String × String) : String × String × ℚ :=
  (k.1, k.2, (((data.filter tlsFilter).filter
    (fun r => (r.architecture, r.bandwidth) = k)).map
      (fun r => r.avgTls)).sum /
    (((data.filter tlsFilter).filter
      (fun r => (r.architecture, r.bandwidth) = k)).length : ℚ))

/-- Ordering of grouped rows by the numeric bandwidth key, as in
`tls_grouped.sort_values('bandwidthNum')`.  pandas' sort kind only affects
the relative order of rows with equal `bandwidthNum`, which leaves the
bandwidth-tier sequence unchanged, so a fixed stable sort is a faithful
model for ordering properties of the tier sequence. -/
def tlsRowLE (x y : String × String × ℚ) : Prop :=
  bwSortKey x.2.1 ≤ bwSortKey y.2.1

instance : DecidableRel tlsRowLE := fun x y =>
  inferInstanceAs (Decidable (bwSortKey x.2.1 ≤ bwSortKey y.2.1))

instance : IsTotal (String × String × ℚ) tlsRowLE :=
  ⟨fun x y => Nat.le_total (bwSortKey x.2.1) (bwSortKey y.2.1)⟩

instance : IsTrans (String × String × ℚ) tlsRowLE :=
  ⟨fun _ _ _ h h' => Nat.le_trans h h'⟩

/-- `DataAnalyzer.generate_tls_vs_bandwidth_chart` grouped output
(lines 151-163): the (architecture, bandwidth) groups with their mean TLS,
sorted by the numeric bandwidth key. -/
def tls_grouped (data : List Record) : List (String × String × ℚ) :=
  List.insertionSort tlsRowLE
    ((groupKeys data tlsFilter (fun r => (r.architecture, r.bandwidth))).map
      (tlsRow data))

/-- `bandwidth_order = ['1mbit', '2mbit', '5mbit']`
(`create_visualizations.py` line 160). -/
def cvBandwidthOrder : List String := ["1mbit", "2mbit", "5mbit"]

/-- One TLS series of `create_visualizations.create_tls_vs_bandwidth_chart`
(lines 144-164): for each tier of `cvBandwidthOrder` in turn, `np.mean` of
the `avgTls` values of the matching records — `NaN` (`none`) when a tier has
no record, because `defaultdict` yields an empty list there. -/
def cvTlsSeries (data : List Record) (isP2P : Bool) : List (Option ℚ) :=
  cvBandwidthOrder.map (fun bw =>
    npMean (((data.filter tlsFilter).filter
      (fun r => ((pyLower r.architecture == "p2p") == isP2P)
        && r.bandwidth == bw)).map (fun r => r.avgTls)))

/-- `create_tls_vs_bandwidth_chart` ends by saving the figure unconditionally
(`create_visualizations.py` line 182): it has no empty-data or `NaN` guard,
so the file is written for every input dataset. -/
def cvTlsChartFiles (_ : List Record) : List String := ["tls_vs_bandwidth.png"]

/-! ## Summary builder -/

/-- `pandas.Series.unique()`: the distinct values in first-occurrence
order. -/
def pdUnique {α : Type} [DecidableEq α] : List α → List α
  | [] => []
  | a :: l => a :: pdUnique (l.filter (fun x => !(x == a)))
termination_by l => l.length
decreasing_by simpa using Nat.lt_succ_of_le (List.length_filter_le _ l)

/-- pandas `.std()` with its default `ddof=1`: `NaN` (`none`) when the series
has at most one element, otherwise the sample standard deviation.  Since `ℚ`
has no square roots the value carried is the sample variance (the square of
the standard deviation); it is defined for exactly the same inputs, which is
all the claims inspect. -/
def pdStd (xs : List ℚ) : Option ℚ :=
  if xs.length ≤ 1 then none
  else
    some (((xs.map (fun x => (x - xs.sum / xs.length) ^ 2)).sum) /
      ((xs.length : ℚ) - 1))

/-- pandas `.min()`, `NaN` on an empty series. -/
def npMin (xs : List ℚ) : Option ℚ := xs.min?

/-- pandas `.max()`, `NaN` on an empty series. -/
def npMax (xs : List ℚ) : Option ℚ := xs.max?

/-- One per-field block of `overall_stats` (`analyze.py` lines 203-220): the
four descriptive statistics of one numeric column. -/
structure FieldStats where
  mean : Option ℚ
  std : Option ℚ
  min : Option ℚ
  max : Option ℚ
deriving DecidableEq, Repr

/-- The JSON keys of a `FieldStats` block, in the order of the dict literal
(`analyze.py` lines 204-207). -/
def fieldStatsKeys : List String := ["mean", "std", "min", "max"]

/-- The four statistics of one column, as computed at
`analyze.py` lines 203-220. -/
def fieldStats (xs : List ℚ) : FieldStats :=
  { mean := npMean xs, std := pdStd xs, min := npMin xs, max := npMax xs }

/-- The `overall_stats` block (`analyze.py` lines 202-221). -/
structure OverallStats where
  cpu_utilization : FieldStats
  latency : FieldStats
  tls : FieldStats
deriving DecidableEq, Repr

/-- One entry of `architecture_comparison` (`analyze.py` lines 228-233):
record count and the mean of each of the three analysis columns. -/
structure ArchEntry where
  tests : ℕ
  avg_cpu : Option ℚ
  avg_latency : Option ℚ
  avg_tls : Option ℚ
deriving DecidableEq, Repr

/-- The JSON keys of an `architecture_comparison` entry, in the order of the
dict literal (`analyze.py` lines 228-233). -/
def archEntryKeys : List String := ["tests", "avg_cpu", "avg_latency", "avg_tls"]

/-- One architecture's comparison entry (`analyze.py` lines 227-233). -/
def archEntry (data : List Record) (arch : String) : ArchEntry :=
  let ad := data.filter (fun r => r.architecture == arch)
  { tests := ad.length
    avg_cpu := npMean (ad.map (fun r => r.avgCpu))
    avg_latency := npMean (ad.map (fun r => r.avgLatency))
    avg_tls := npMean (ad.map (fun r => r.avgTls)) }

/-- The `architecture_comparison` mapping (`analyze.py` lines 225-235): one
entry per distinct architecture of the loaded data, in first-occurrence
order. -/
def architecture_comparison (data : List Record) : List (String × ArchEntry) :=
  (pdUnique (data.map (fun r => r.architecture))).map
    (fun a => (a, archEntry data a))

/-- The summary document written by `DataAnalyzer.generate_summary_statistics`
(`analyze.py` lines 196-235).  The three distinct-value listings
(`viewer_counts`, `packet_loss_rates`, `bandwidth_limits`) are carried as the
distinct values in first-occurrence or sorted order exactly as in the
source. -/
structure Summary where
  total_tests : ℕ
  architectures : List String
  viewer_counts : List ℕ
  bandwidth_limits : List String
  overall_stats : OverallStats
  architecture_comparison : List (String × ArchEntry)
deriving DecidableEq, Repr

/-- `DataAnalyzer.generate_summary_statistics` (lines 192-242). -/
def generate_summary_statistics (data : List Record) : Summary :=
  { total_tests := data.length
    architectures := pdUnique (data.map (fun r => r.architecture))
    viewer_counts :=
      List.insertionSort (· ≤ ·) (pdUnique (data.map (fun r => r.numViewers)))
    bandwidth_limits := pdUnique (data.map (fun r => r.bandwidth))
    overall_stats :=
      { cpu_utilization := fieldStats (data.map (fun r => r.avgCpu))
        latency := fieldStats (data.map (fun r => r.avgLatency))
        tls := fieldStats (data.map (fun r => r.avgTls)) }
    architecture_comparison := architecture_comparison data }

/-- One entry of `performance_comparison` in
`create_visualizations.create_summary_stats` (lines 197-205): the records are
matched case-insensitively against the fixed label. -/
structure CvArchEntry where
  avg_cpu : Option ℚ
  avg_latency : Option ℚ
  avg_tls : Option ℚ
  test_count : ℕ
deriving DecidableEq, Repr

/-- The fixed architecture list of `create_summary_stats`
(`create_visualizations.py` lines 192 and 197): the keys of
`performance_comparison` are always exactly these two labels. -/
def cvArchitectures : List String := ["P2P", "SFU"]

/-- One per-architecture entry of `create_summary_stats` (lines 198-205). -/
def cvArchEntry (data : List Record) (arch : String) : CvArchEntry :=
  let ad := data.filter (fun r => pyLower r.architecture == pyLower arch)
  { avg_cpu := npMean (ad.map (fun r => r.avgCpu))
    avg_latency := npMean (ad.map (fun r => r.avgLatency))
    avg_tls := npMean (ad.map (fun r => r.avgTls))
    test_count := ad.length }

/-- `create_visualizations.create_summary_stats` (lines 186-212):
total count, the fixed architecture list, and the per-architecture entries
for exactly `P2P` and `SFU`. -/
def create_summary_stats (data : List Record) :
    ℕ × List String × List (String × CvArchEntry) :=
  (data.length, cvArchitectures,
    cvArchitectures.map (fun a => (a, cvArchEntry data a)))

/-! ## Entry points (exit status and files written) -/

/-- The files `DataAnalyzer.run_analysis` writes for a loaded dataset: each
chart is skipped (warning, no file) when its filtered subset is empty
(`analyze.py` lines 82-84, 116-118, 153-155); the summary file is always
written. -/
def analyzeOutputs (data : List Record) : List String :=
  (if (data.filter cpuFilter).isEmpty then [] else ["cpu_utilization.png"]) ++
  (if (data.filter (fun r => r.numViewers == 5)).isEmpty then []
    else ["latency_vs_loss.png"]) ++
  (if (data.filter tlsFilter).isEmpty then [] else ["tls_vs_bandwidth.png"]) ++
  ["summary_statistics.json"]

/-- `analyze.py`'s `main` (lines 273-291): the process exit status and the
output files written.  A load failure is caught in `run_analysis`
(lines 267-271), which returns `False`, and `main` then calls `exit(1)`;
an empty loaded dataset also returns `False` (lines 263-265). -/
def analyzeMain (csv : Option (List CsvRow)) (json : Option (List JsonResult)) :
    ℕ × List String :=
  match load_data csv json with
  | .error _ => (1, [])
  | .ok data => if data.isEmpty then (1, []) else (0, analyzeOutputs data)

/-- `create_visualizations.py`'s `main` (lines 214-228): when no data is
loaded it prints a message and returns — the interpreter then exits with
status `0`; otherwise all four outputs are written unconditionally (its chart
functions have no empty-data guard). -/
def cvMain (csv : Option (List CsvRow)) : ℕ × List String :=
  let data := cvLoad_data csv
  if data.isEmpty then (0, [])
  else (0, ["cpu_utilization.png", "latency_vs_loss.png",
    "tls_vs_bandwidth.png", "summary_statistics.json"])

/-! ## Concrete inputs used by witnesses and counterexamples -/

/-- Build a record with the fields the analyses read. -/
def mkRecord (arch : String) (viewers : ℕ) (loss : ℚ) (bw : String)
    (cpu lat tls : ℚ) : Record :=
  { testId := 0, architecture := arch, numViewers := viewers,
    packetLoss := loss, bandwidth := bw, avgLatency := lat, minLatency := lat,
    maxLatency := lat, avgCpu := cpu, maxCpu := cpu, avgTls := tls,
    minTls := tls }

/-- The `p2p` record of the spec's two-record scenario:
viewers = 5, packet loss = 0, CPU = 20. -/
def recP2P : Record := mkRecord "p2p" 5 0 "1mbit" 20 100 6

/-- The `sfu` record of the spec's two-record scenario:
viewers = 5, packet loss = 0, CPU = 30. -/
def recSFU : Record := mkRecord "sfu" 5 0 "1mbit" 30 110 8

/-- A record whose architecture label is neither `p2p` nor `sfu`. -/
def recMesh : Record := mkRecord "MESH" 5 0 "1mbit" 40 120 9

/-- A CSV row of a failed test run: its success flag is false. -/
def failedCsvRow : CsvRow :=
  { testId := 1, architecture := "P2P", numViewers := 1, packetLoss := 0,
    bandwidth := "1mbit", success := false, avgLatency := 0, minLatency := 0,
    maxLatency := 0, avgCpu := 0, maxCpu := 0, avgTls := 0, minTls := 0,
    timestamp := 0 }

/-! ## Helper lemmas -/

/-- `pdUnique` preserves membership. -/
theorem mem_pdUnique {α : Type} [DecidableEq α] (x : α) :
    ∀ l : List α, x ∈ pdUnique l ↔ x ∈ l
  | [] => by simp [pdUnique]
  | a :: l => by
    rw [pdUnique, List.mem_cons, mem_pdUnique x (l.filter (fun y => !(y == a)))]
    simp only [List.mem_filter, List.mem_cons, Bool.not_eq_true', beq_eq_false_iff_ne]
    constructor
    · rintro (rfl | ⟨hx, _⟩)
      · exact Or.inl rfl
      · exact Or.inr hx
    · rintro (rfl | hx)
      · exact Or.inl rfl
      · by_cases hxa : x = a
        · exact Or.inl hxa
        · exact Or.inr ⟨hx, hxa⟩
termination_by l => l.length
decreasing_by simpa using Nat.lt_succ_of_le (List.length_filter_le _ l)


/-- Summing, over the distinct values of a list, the number of occurrences of
each value gives back the length of the list. -/
theorem sum_countP_pdUnique {α : Type} [DecidableEq α] :
    ∀ l : List α,
      ((pdUnique l).map (fun a => l.countP (fun x => x == a))).sum = l.length
  | [] => by simp [pdUnique]
  | a :: l => by
    rw [pdUnique]
    have hrec := sum_countP_pdUnique (l.filter (fun y => !(y == a)))
    have hmap :
        (pdUnique (l.filter (fun y => !(y == a)))).map
            (fun b => (a :: l).countP (fun x => x == b)) =
          (pdUnique (l.filter (fun y => !(y == a)))).map
            (fun b => (l.filter (fun y => !(y == a))).countP (fun x => x == b)) := by
      apply List.map_congr_left
      intro b hb
      have hbmem : b ∈ l.filter (fun y => !(y == a)) :=
        (mem_pdUnique b _).mp hb
      have hba : ¬(b = a) := by
        have := (List.mem_filter.mp hbmem).2
        simpa using this
      rw [List.countP_cons, List.countP_filter]
      have hif : (if (a == b) = true then 1 else 0) = 0 := by
        simp [Ne.symm hba]
      rw [hif, Nat.add_zero]
      apply List.countP_congr
      intro x _
      constructor
      · intro hxb
        have hxb' : x = b := by simpa using hxb
        subst hxb'
        simp [beq_iff_eq, hba]
      · intro hx
        exact ((Bool.and_eq_true _ _).mp hx).1
    rw [List.map_cons, List.sum_cons, hmap, hrec, List.countP_cons]
    have hif : (if (a == a) = true then 1 else 0) = 1 := by simp
    rw [hif]
    have hflen : (l.filter (fun y => !(y == a))).length =
        l.countP (fun y => !(y == a)) := (List.countP_eq_length_filter _ _).symm
    rw [hflen, List.length_cons]
    have hsplit : l.length = l.countP (fun x => x == a) +
        l.countP (fun x => decide ¬((x == a) = true)) :=
      List.length_eq_countP_add_countP _ _
    have hcong : l.countP (fun y => !(y == a)) =
        l.countP (fun x => decide ¬((x == a) = true)) := by
      apply List.countP_congr
      intro x _
      simp
    rw [hcong]
    omega
termination_by l => l.length
decreasing_by simpa using Nat.lt_succ_of_le (List.length_filter_le _ l)

/-- `np.mean` is invariant under permutation of its input list. -/
theorem npMean_perm {xs ys : List ℚ} (h : xs.Perm ys) : npMean xs = npMean ys := by
  have hlen := h.length_eq
  have hsum := h.sum_eq
  have hemp : xs.isEmpty = ys.isEmpty := by
    cases xs <;> cases ys <;> simp_all
  unfold npMean
  rw [hemp, hsum, hlen]

/-! ## Claims -/

/-- C1, counterexample: a CSV input whose single row has a false success flag
is loaded in full — `DataAnalyzer.load_data` produces one record although
zero input rows are usable, so the loader's output length is not the usable
count for every input source. -/
theorem C1_counterexample :
    load_data (some [failedCsvRow]) none = .ok [failedCsvRow.toRecord] ∧
    ([failedCsvRow].filter (fun r => r.success)).length = 0 ∧
    [failedCsvRow.toRecord].length = 1 :=
  ⟨rfl, by decide, rfl⟩

/-- C1 (amended): for a JSON input the loader produces exactly as many
records as there are input results with a true success flag and a present
metrics block; for a CSV input both loaders produce one record per CSV row,
with no filtering on the success flag. -/
theorem C1_loader_counts (results : List JsonResult) (rows : List CsvRow) :
    (jsonToRecords results).length =
      (results.filter (fun r => r.success && r.metrics.isSome)).length ∧
    load_data none (some results) = .ok (jsonToRecords results) ∧
    load_data (some rows) none = .ok (rows.map CsvRow.toRecord) ∧
    (cvLoad_data (some rows)).length = rows.length := by
  refine ⟨?_, rfl, rfl, by simp [cvLoad_data]⟩
  induction results with
  | nil => rfl
  | cons r rs ih =>
    cases hs : r.success <;> cases hm : r.metrics <;>
      simp [jsonToRecords, hs, hm, ih]

/-- C3, counterexample: with no recognized input source,
`create_visualizations.py`'s `main` prints a message and returns normally,
so that process exits with status 0 — not the non-zero status the claim
requires of every run. -/
theorem C3_counterexample : cvMain none = (0, []) := rfl

/-- C3 (amended): with no recognized input source both entry points abort
before producing any output file; `analyze.py` exits with the non-zero
status 1, while `create_visualizations.py` exits with status 0. -/
theorem C3_missing_input :
    analyzeMain none none = (1, []) ∧ cvMain none = (0, []) :=
  ⟨rfl, rfl⟩

/-- C5: in the aggregated TLS-vs-bandwidth output the bandwidth tiers appear
ordered by their numeric bit-rate (1, 2, 5), for every input dataset and
hence regardless of input record order: the grouped rows of `analyze.py` are
sorted by the numeric bandwidth key, and `create_visualizations.py` emits
its series over the fixed numerically ordered tier list. -/
theorem C5_bandwidth_order (data : List Record) :
    ((tls_grouped data).map (fun row => bwSortKey row.2.1)).Sorted (· ≤ ·) ∧
    bwSortKey "1mbit" = 1 ∧ bwSortKey "2mbit" = 2 ∧ bwSortKey "5mbit" = 5 ∧
    cvBandwidthOrder = ["1mbit", "2mbit", "5mbit"] := by
  refine ⟨?_, rfl, rfl, rfl, rfl⟩
  have hs : (tls_grouped data).Sorted tlsRowLE :=
    List.sorted_insertionSort tlsRowLE _
  exact List.pairwise_map.mpr hs

/-- C6: the aggregation engine is order-independent — for every record list,
filter predicate, grouping key, value field and group key, permuting the
input records leaves the computed group mean unchanged. -/
theorem C6_aggregation_perm {K : Type} [DecidableEq K]
    (data data' : List Record) (h : data.Perm data')
    (P : Record → Bool) (key : Record → K) (val : Record → ℚ) (k : K) :
    aggregateMean data P key val k = aggregateMean data' P key val k := by
  apply npMean_perm
  unfold groupValues
  exact List.Perm.map val (List.Perm.filter _ (List.Perm.filter P h))

/-- C6 witness: the CPU aggregation of the two-record scenario is unchanged
by swapping the two records. -/
theorem C6_aggregation_perm_witness :
    aggregateMean [recP2P, recSFU] cpuFilter
        (fun r => (r.architecture, r.numViewers)) (fun r => r.avgCpu)
        ("p2p", 5) =
      aggregateMean [recSFU, recP2P] cpuFilter
        (fun r => (r.architecture, r.numViewers)) (fun r => r.avgCpu)
        ("p2p", 5) :=
  C6_aggregation_perm [recP2P, recSFU] [recSFU, recP2P]
    (List.Perm.swap recSFU recP2P []) cpuFilter
    (fun r => (r.architecture, r.numViewers)) (fun r => r.avgCpu) ("p2p", 5)

/-- C10: when both a CSV and a JSON input are present, `DataAnalyzer.load_data`
reads the CSV file and ignores the JSON document entirely: the loaded record
set is determined by the CSV contents alone. -/
theorem C10_csv_precedence (rows : List CsvRow)
    (json json' : Option (List JsonResult)) :
    load_data (some rows) json = .ok (rows.map CsvRow.toRecord) ∧
    load_data (some rows) json = load_data (some rows) json' :=
  ⟨rfl, rfl⟩

/-- C7: aggregation over a group with exactly one matching record returns
that record's value unchanged; and on the two-record scenario
(`p2p`, viewers 5, loss 0, cpu 20) and (`sfu`, viewers 5, loss 0, cpu 30),
the CPU-vs-viewers aggregation at viewers = 5 yields 20 for `p2p` and 30 for
`sfu` in both implementations. -/
theorem C7_singleton_mean {K : Type} [DecidableEq K] (data : List Record)
    (P : Record → Bool) (key : Record → K) (val : Record → ℚ) (k : K)
    (r : Record)
    (h : (data.filter P).filter (fun x => key x = k) = [r]) :
    aggregateMean data P key val k = some (val r) ∧
    cpuMean [recP2P, recSFU] ("p2p", 5) = some 20 ∧
    cpuMean [recP2P, recSFU] ("sfu", 5) = some 30 ∧
    cvCpuSeries [recP2P, recSFU] true 5 = some 20 ∧
    cvCpuSeries [recP2P, recSFU] false 5 = some 30 := by
  refine ⟨?_, ?_, ?_, ?_, ?_⟩
  · unfold aggregateMean groupValues npMean
    rw [h]
    simp
  · simp [cpuMean, aggregateMean, groupValues, npMean, cpuFilter, recP2P,
      recSFU, mkRecord]
  · simp [cpuMean, aggregateMean, groupValues, npMean, cpuFilter, recP2P,
      recSFU, mkRecord]
  · simp [cvCpuSeries, npMean, cpuFilter, recP2P, recSFU, mkRecord, pyLower]
  · simp [cvCpuSeries, npMean, cpuFilter, recP2P, recSFU, mkRecord, pyLower]

/-- C7 witness: applied to the two-record scenario, where the `p2p` group at
viewers = 5 holds exactly the record with CPU 20. -/
theorem C7_singleton_mean_witness :
    aggregateMean [recP2P, recSFU] cpuFilter
        (fun r => (r.architecture, r.numViewers)) (fun r => r.avgCpu)
        ("p2p", 5) = some recP2P.avgCpu ∧
    cpuMean [recP2P, recSFU] ("sfu", 5) = some 30 :=
  ⟨(C7_singleton_mean [recP2P, recSFU] cpuFilter
      (fun r => (r.architecture, r.numViewers)) (fun r => r.avgCpu)
      ("p2p", 5) recP2P (by decide)).1,
   (C7_singleton_mean [recP2P, recSFU] cpuFilter
      (fun r => (r.architecture, r.numViewers)) (fun r => r.avgCpu)
      ("p2p", 5) recP2P (by decide)).2.2.1⟩

/-- C8: for a dataset whose single record makes every statistics group a
one-element group, the summary builder marks the standard deviation of each
of its three emitted std statistics undefined (pandas `NaN`, modelled
`none`) — the same marker for all three, with no division-by-zero error —
and the per-architecture entries emit no std key at all. -/
theorem C8_std_single_group (data : List Record) (h : data.length = 1) :
    (generate_summary_statistics data).overall_stats.cpu_utilization.std
      = none ∧
    (generate_summary_statistics data).overall_stats.latency.std = none ∧
    (generate_summary_statistics data).overall_stats.tls.std = none ∧
    "std" ∉ archEntryKeys := by
  have hstd : ∀ f : Record → ℚ, pdStd (data.map f) = none := by
    intro f
    unfold pdStd
    rw [List.length_map, h]
    simp
  exact ⟨hstd _, hstd _, hstd _, by decide⟩

/-- C8 witness: the summary of the one-record dataset `[recP2P]`. -/
theorem C8_std_single_group_witness :
    (generate_summary_statistics [recP2P]).overall_stats.cpu_utilization.std
      = none ∧
    "std" ∉ archEntryKeys :=
  ⟨(C8_std_single_group [recP2P] rfl).1,
   (C8_std_single_group [recP2P] rfl).2.2.2⟩

/-- The engine's no-data signal: a group mean is `NaN`-free exactly when the
group is non-empty — `npMean` returns `none` iff its input list is empty. -/
theorem npMean_eq_none_iff (xs : List ℚ) : npMean xs = none ↔ xs = [] := by
  unfold npMean
  cases hxs : xs.isEmpty <;> simp_all [List.isEmpty_iff]

/-- C2, counterexample: on the one-record dataset `[recP2P]` the TLS chart of
`create_visualizations.py` does not omit the empty bandwidth tiers: its
plotted p2p series is `[mean, NaN, NaN]` — `NaN` placeholders at the 2mbit
and 5mbit positions — and the chart file is still written, not skipped. -/
theorem C2_counterexample :
    cvTlsSeries [recP2P] true = [some 6, none, none] ∧
    cvTlsChartFiles [recP2P] = ["tls_vs_bandwidth.png"] := by
  refine ⟨?_, rfl⟩
  simp [cvTlsSeries, npMean, tlsFilter, recP2P, mkRecord, pyLower,
    cvBandwidthOrder]

/-- C2 (amended): in `analyze.py` the engine signals no-data — a group mean
is `none` iff the group has no records, the grouped keys are exactly those
with at least one matching record, and an empty CPU filter result skips the
CPU chart; but in `create_visualizations.py`'s TLS chart each series always
covers all three tiers, with `NaN` placeholders for empty ones, and the
chart file is written unconditionally. -/
theorem C2_empty_group_handling (data : List Record)
    (P : Record → Bool) (val : Record → ℚ) (k : String × String) :
    (aggregateMean data P (fun r => (r.architecture, r.bandwidth)) val k
        = none ↔
      groupValues data P (fun r => (r.architecture, r.bandwidth)) val k
        = []) ∧
    (k ∈ groupKeys data P (fun r => (r.architecture, r.bandwidth)) ↔
      ∃ r ∈ data.filter P, (r.architecture, r.bandwidth) = k) ∧
    ((data.filter cpuFilter).isEmpty = true →
      "cpu_utilization.png" ∉ analyzeOutputs data) ∧
    (cvTlsSeries data true).length = 3 ∧
    (cvTlsSeries data false).length = 3 ∧
    cvTlsChartFiles data = ["tls_vs_bandwidth.png"] := by
  refine ⟨npMean_eq_none_iff _, ?_, ?_, ?_, ?_, rfl⟩
  · unfold groupKeys
    rw [List.mem_dedup, List.mem_map]
  · intro h
    by_cases h2 : (data.filter (fun r => r.numViewers == 5)).isEmpty <;>
      by_cases h3 : (data.filter tlsFilter).isEmpty <;>
        simp [analyzeOutputs, h, h2, h3]
  · simp [cvTlsSeries, cvBandwidthOrder]
  · simp [cvTlsSeries, cvBandwidthOrder]

/-- C2 witness: on the empty dataset the CPU filter is empty and the CPU
chart is skipped; on `[recP2P]` the TLS series still covers three tiers. -/
theorem C2_empty_group_handling_witness :
    "cpu_utilization.png" ∉ analyzeOutputs [] ∧
    (cvTlsSeries [recP2P] true).length = 3 :=
  ⟨(C2_empty_group_handling [] cpuFilter (fun r => r.avgTls)
      ("p2p", "1mbit")).2.2.1 rfl,
   (C2_empty_group_handling [recP2P] tlsFilter (fun r => r.avgTls)
      ("p2p", "1mbit")).2.2.2.1⟩

/-- C4, counterexample: on a one-record dataset whose architecture label is
`MESH`, `create_summary_stats` keys its breakdown by the fixed labels `P2P`
and `SFU` only — the observed label `MESH` is not a key — and the
per-architecture counts sum to 0, not to the total record count 1. -/
theorem C4_counterexample :
    "MESH" ∈ [recMesh].map (fun r => r.architecture) ∧
    (create_summary_stats [recMesh]).2.2.map Prod.fst = ["P2P", "SFU"] ∧
    "MESH" ∉ (create_summary_stats [recMesh]).2.2.map Prod.fst ∧
    ((create_summary_stats [recMesh]).2.2.map
      (fun e => e.2.test_count)).sum = 0 ∧
    (create_summary_stats [recMesh]).1 = 1 := by
  refine ⟨by decide, rfl, by decide, ?_, rfl⟩
  simp [create_summary_stats, cvArchitectures, cvArchEntry, recMesh,
    mkRecord, pyLower]
/-- Splitting a record list into its case-insensitive `p2p` and `sfu` parts
loses nothing when every record's label lower-cases to one of the two. -/
theorem filter_p2p_sfu_length :
    ∀ l : List Record,
      (∀ r ∈ l, pyLower r.architecture = "p2p" ∨
        pyLower r.architecture = "sfu") →
      (l.filter (fun r => pyLower r.architecture == "p2p")).length +
        (l.filter (fun r => pyLower r.architecture == "sfu")).length
        = l.length
  | [] => fun _ => rfl
  | r :: rs => by
    intro hall
    have hr := hall r (List.mem_cons_self r rs)
    have hrs : ∀ x ∈ rs, pyLower x.architecture = "p2p" ∨
        pyLower x.architecture = "sfu" :=
      fun x hx => hall x (List.mem_cons_of_mem r hx)
    have ihrs := filter_p2p_sfu_length rs hrs
    rcases hr with hr | hr <;>
      simp [List.filter_cons, hr, List.length_cons] <;>
      omega

/-- C4 (amended): in `analyze.py`'s summary every observed architecture
label is a key of the per-architecture breakdown and the per-architecture
counts sum to the total record count, for every dataset; in
`create_visualizations.py`'s summary the keys are always exactly `P2P` and
`SFU`, and its counts sum to the total only for datasets whose every record
lower-cases to `p2p` or `sfu`. -/
theorem C4_summary_invariant (data : List Record) :
    (∀ a ∈ data.map (fun r => r.architecture),
      a ∈ (architecture_comparison data).map Prod.fst) ∧
    ((architecture_comparison data).map (fun e => e.2.tests)).sum
      = data.length ∧
    (create_summary_stats data).2.2.map Prod.fst = cvArchitectures ∧
    ((∀ r ∈ data, pyLower r.architecture = "p2p" ∨
        pyLower r.architecture = "sfu") →
      ((create_summary_stats data).2.2.map (fun e => e.2.test_count)).sum
        = data.length) := by
  have hkeys : (architecture_comparison data).map Prod.fst =
      pdUnique (data.map (fun r => r.architecture)) := by
    unfold architecture_comparison
    rw [List.map_map]
    have hcomp : (Prod.fst ∘ fun a => (a, archEntry data a)) = id := rfl
    rw [hcomp, List.map_id]
  refine ⟨?_, ?_, rfl, ?_⟩
  · intro a ha
    rw [hkeys]
    exact (mem_pdUnique a _).mpr ha
  · have htests : (architecture_comparison data).map (fun e => e.2.tests) =
        (pdUnique (data.map (fun r => r.architecture))).map
          (fun a => (data.map (fun r => r.architecture)).countP
            (fun x => x == a)) := by
      unfold architecture_comparison archEntry
      rw [List.map_map]
      apply List.map_congr_left
      intro a _
      show (data.filter (fun r => r.architecture == a)).length = _
      rw [List.countP_map, List.countP_eq_length_filter]
      rfl
    rw [htests, sum_countP_pdUnique, List.length_map]
  · intro hall
    have hp : pyLower "P2P" = "p2p" := by decide
    have hs : pyLower "SFU" = "sfu" := by decide
    have hsum : ((create_summary_stats data).2.2.map
        (fun e => e.2.test_count)).sum =
      (data.filter (fun r => pyLower r.architecture == "p2p")).length +
      (data.filter (fun r => pyLower r.architecture == "sfu")).length := by
      simp [create_summary_stats, cvArchitectures, cvArchEntry, hp, hs]
    rw [hsum]
    exact filter_p2p_sfu_length data hall

/-- C4 witness: on the two-record scenario dataset, the observed label
`p2p` is a key of the breakdown and the `create_visualizations` counts sum
to the total of 2. -/
theorem C4_summary_invariant_witness :
    "p2p" ∈ (architecture_comparison [recP2P, recSFU]).map Prod.fst ∧
    ((create_summary_stats [recP2P, recSFU]).2.2.map
      (fun e => e.2.test_count)).sum = 2 :=
  ⟨(C4_summary_invariant [recP2P, recSFU]).1 "p2p" (by decide),
   (C4_summary_invariant [recP2P, recSFU]).2.2.2 (by decide)⟩

/-- C9, counterexample: on the dataset `[recP2P]` the per-architecture
breakdown entry emits only a record count and three means — its keys are
`tests`, `avg_cpu`, `avg_latency`, `avg_tls`, without the `std`, `min` and
`max` statistics the global block carries. -/
theorem C9_counterexample :
    (architecture_comparison [recP2P]).map Prod.fst = ["p2p"] ∧
    archEntryKeys = ["tests", "avg_cpu", "avg_latency", "avg_tls"] ∧
    ("std" ∉ archEntryKeys ∧ "min" ∉ archEntryKeys ∧
      "max" ∉ archEntryKeys) ∧
    ("std" ∈ fieldStatsKeys ∧ "min" ∈ fieldStatsKeys ∧
      "max" ∈ fieldStatsKeys) := by
  refine ⟨?_, rfl, by decide, by decide⟩
  simp [architecture_comparison, pdUnique, recP2P, mkRecord]

/-- C9 (amended): for each observed architecture label the breakdown
contains an entry holding the record count and the mean of each of the
three numeric fields; the four descriptive statistics (mean, std, min, max)
appear only in the global block, not per architecture. -/
theorem C9_arch_entries (data : List Record) (a : String)
    (h : a ∈ data.map (fun r => r.architecture)) :
    (a, archEntry data a) ∈ architecture_comparison data ∧
    (archEntry data a).tests =
      (data.filter (fun r => r.architecture == a)).length ∧
    (archEntry data a).avg_cpu =
      npMean ((data.filter (fun r => r.architecture == a)).map
        (fun r => r.avgCpu)) ∧
    (archEntry data a).avg_latency =
      npMean ((data.filter (fun r => r.architecture == a)).map
        (fun r => r.avgLatency)) ∧
    (archEntry data a).avg_tls =
      npMean ((data.filter (fun r => r.architecture == a)).map
        (fun r => r.avgTls)) ∧
    archEntryKeys.length = 4 ∧ "std" ∉ archEntryKeys := by
  refine ⟨?_, rfl, rfl, rfl, rfl, rfl, by decide⟩
  unfold architecture_comparison
  exact List.mem_map.mpr ⟨a, (mem_pdUnique a _).mpr h, rfl⟩

/-- C9 witness: applied to the dataset `[recP2P]` at its observed label. -/
theorem C9_arch_entries_witness :
    ("p2p", archEntry [recP2P] "p2p") ∈ architecture_comparison [recP2P] ∧
    (archEntry [recP2P] "p2p").tests = 1 := by
  refine ⟨(C9_arch_entries [recP2P] "p2p" (by decide)).1, ?_⟩
  have h := (C9_arch_entries [recP2P] "p2p" (by decide)).2.1
  simpa [recP2P, mkRecord] using h
